/-
Verification of the notification dispatcher and history store in
src/services/push-service.js: a shallow embedding of the JavaScript
functions as Lean definitions, followed by theorems about them.
-/
import Mathlib

set_option linter.unusedVariables false

namespace PushService

/-- A JavaScript value as it appears in the notification data objects:
either a string or a number (numbers are modelled as rationals; every
numeric literal the service handles is an exact decimal). -/
inductive JVal
  | str (s : String)
  | num (q : ℚ)
deriving DecidableEq

/-- A JavaScript object, modelled as an association list from keys to
values; the entry closest to the head wins on lookup, so a spread such
as `\x7b...data, title\x7d` is modelled by prepending the overriding entry. -/
abbrev Obj := List (String × JVal)

/-- Property lookup: the first entry with the requested key, `none` when
the key is absent (JavaScript `undefined`). -/
def jlookup : Obj → String → Option JVal
  | [], _ => none
  | (k, v) :: o, a => if a = k then some v else jlookup o a

/-- Set a property, overriding any existing entry with the same key. -/
def oset (o : Obj) (k : String) (v : JVal) : Obj := (k, v) :: o

/-- Set a property from a possibly-absent value: writing `undefined` to a
key and then serializing through JSON leaves the object unchanged, so an
absent value sets nothing. -/
def osetOpt (o : Obj) (k : String) (v : Option JVal) : Obj :=
  match v with
  | some x => (k, x) :: o
  | none => o

/-- JavaScript truthiness for the values the service handles. -/
def truthy : JVal → Bool
  | JVal.str s => decide (s ≠ "")
  | JVal.num q => decide (q ≠ 0)

/-- The JavaScript ` || ` operator applied to a possibly-absent value and
a default: the value when present and truthy, otherwise the default. -/
def jsOr (v : Option JVal) (d : JVal) : JVal :=
  match v with
  | some x => if truthy x then x else d
  | none => d

/-- The decimal digit character for `n % 10`. -/
def dchar (n : Nat) : Char := Char.ofNat (48 + n % 10)

/-- Two zero-padded decimal digits (correct for `n < 100`). -/
def d2chars (n : Nat) : List Char := [dchar (n / 10), dchar n]

/-- Three zero-padded decimal digits (correct for `n < 1000`). -/
def d3chars (n : Nat) : List Char := [dchar (n / 100), dchar (n / 10), dchar n]

/-- Four zero-padded decimal digits (correct for `n < 10000`). -/
def d4chars (n : Nat) : List Char := [dchar (n / 1000), dchar (n / 100), dchar (n / 10), dchar n]

/-- Civil date (year, month, day) from a count of days since 1970-01-01,
by the standard Gregorian-calendar conversion. -/
def civilFromDays (z : Nat) : Nat × Nat × Nat :=
  let z' := z + 719468
  let era := z' / 146097
  let doe := z' % 146097
  let yoe := (doe - doe / 1460 + doe / 36524 - doe / 146096) / 365
  let doy := doe - (365 * yoe + yoe / 4 - yoe / 100)
  let mp := (5 * doy + 2) / 153
  let d := doy - (153 * mp + 2) / 5 + 1
  let m := if mp < 10 then mp + 3 else mp - 9
  (yoe + era * 400 + (if m ≤ 2 then 1 else 0), m, d)

/-- The character list of the ISO-8601 rendering of an epoch-millisecond
count: `YYYY-MM-DDTHH:MM:SS.mmmZ`. -/
def isoCharsOfMillis (t : Nat) : List Char :=
  d4chars (civilFromDays (t / 86400000)).1 ++
    '-' :: d2chars (civilFromDays (t / 86400000)).2.1 ++
    '-' :: d2chars (civilFromDays (t / 86400000)).2.2 ++
    'T' :: d2chars (t / 3600000 % 24) ++
    ':' :: d2chars (t / 60000 % 60) ++
    ':' :: d2chars (t / 1000 % 60) ++
    '.' :: d3chars (t % 1000) ++
    ['Z']

/-- Model of `new Date(t).toISOString()` for a nonnegative epoch-millisecond
count `t` (faithful for dates up to year 9999): the 24-character string
`YYYY-MM-DDTHH:MM:SS.mmmZ`. -/
def isoOfMillis (t : Nat) : String :=
  String.mk (isoCharsOfMillis t)

/-- Checks that a character list spells an ISO-8601 UTC timestamp of the
shape `YYYY-MM-DDTHH:MM:SS.mmmZ`. -/
def validIsoChars : List Char → Bool
  | [y1, y2, y3, y4, s1, m1, m2, s2, d1, d2, s3, h1, h2, s4, i1, i2, s5, c1, c2, s6, x1, x2, x3, s7] =>
      y1.isDigit && y2.isDigit && y3.isDigit && y4.isDigit &&
      (s1 == '-') && m1.isDigit && m2.isDigit &&
      (s2 == '-') && d1.isDigit && d2.isDigit &&
      (s3 == 'T') && h1.isDigit && h2.isDigit &&
      (s4 == ':') && i1.isDigit && i2.isDigit &&
      (s5 == ':') && c1.isDigit && c2.isDigit &&
      (s6 == '.') && x1.isDigit && x2.isDigit && x3.isDigit &&
      (s7 == 'Z')
  | _ => false

/-- A string is a valid ISO-8601 UTC timestamp of the fixed 24-character shape. -/
def validIso (s : String) : Bool := validIsoChars s.data

/-- The number of cents in the fraction `n / d`, rounding half up:
`⌊100 * n / d + 1 / 2⌋` computed as `(200 * n + d) / (2 * d)`. -/
def centsHalfUp (n : Nat) (d : Nat) : Nat := (200 * n + d) / (2 * d)

/-- Renders a cent count as a decimal string with exactly two digits after
the point. -/
def natFixed2 (n : Nat) : String :=
  toString (n / 100) ++ "." ++ String.mk (d2chars (n % 100))

/-- Model of JavaScript `x.toFixed(2)`: round to the nearest hundredth
(ties away from zero) and render with exactly two decimal places; computed
from the reduced fraction of the rational. -/
def jsToFixed2 (q : ℚ) : String :=
  if q.num < 0 then "-" ++ natFixed2 (centsHalfUp q.num.natAbs q.den)
  else natFixed2 (centsHalfUp q.num.natAbs q.den)

/-- The argument of `saveNotificationToHistory`: the notification as the
dispatcher hands it over (`scheduledAt` is absent for immediate sends). -/
structure NotificationInput where
  id : String
  title : String
  body : String
  data : Obj
  scheduledAt : Option String
deriving DecidableEq

/-- One persisted entry of the notification history, with the source's
field names (including the misspelled `shleduledAt` storage key). -/
structure NotificationItem where
  id : String
  title : String
  body : String
  data : Obj
  receivedAt : String
  shleduledAt : String
deriving DecidableEq

/-- Which host calls fail by throwing: `AsyncStorage.getItem`,
`AsyncStorage.setItem` and `AsyncStorage.removeItem`. -/
structure Faults where
  getFails : Bool
  setFails : Bool
  removeFails : Bool
deriving DecidableEq

/-- The serialized blob under the `notification_history` key: either a
serialization of a list of records, or bytes `JSON.parse` rejects. -/
inductive Blob
  | ok (items : List NotificationItem)
  | corrupt
deriving DecidableEq

/-- The persistent storage cell backing the history store: `none` when no
blob is stored under the key. -/
abbrev Store := Option Blob

/-- All host storage calls succeed. -/
def noFaults : Faults := ⟨false, false, false⟩

/-- A storage cell with nothing persisted. -/
def emptyStore : Store := none

/-- The stored blob, if any, parses back to a record list. -/
def wellFormed : Store → Bool
  | some Blob.corrupt => false
  | _ => true

/-- The JavaScript ` || '' ` fallback applied to a possibly-absent string. -/
def jsOrEmpty : Option String → String
  | none => ""
  | some s => if s = "" then "" else s

/-- Data object written into a history item: `saveNotificationToHistory`
spreads `notification.data` and then re-sets `title`, `body`, `price` and
`quantity` from `notification.data` itself; re-setting an absent key
writes `undefined`, which the JSON serialization drops again. -/
def saveDataOf (d : Obj) : Obj :=
  osetOpt (osetOpt (osetOpt (osetOpt d "title" (jlookup d "title"))
    "body" (jlookup d "body")) "price" (jlookup d "price")) "quantity" (jlookup d "quantity")

/-- The history item built by `saveNotificationToHistory` at time `now`
(epoch milliseconds): `receivedAt` is the current time's ISO string and
`shleduledAt` is `notification.scheduledAt || ''`. -/
def mkHistoryItem (now : Nat) (n : NotificationInput) : NotificationItem :=
  { id := n.id
    title := n.title
    body := n.body
    data := saveDataOf n.data
    receivedAt := isoOfMillis now
    shleduledAt := jsOrEmpty n.scheduledAt }

/-- Result of `existingHistory ? JSON.parse(existingHistory) : []`:
`none` when `JSON.parse` throws. -/
def parsedOrNone : Store → Option (List NotificationItem)
  | none => some []
  | some (Blob.ok l) => some l
  | some Blob.corrupt => none

/-- `saveNotificationToHistory`: reads the blob, parses it (empty when
nothing is stored), unshifts the new item, slices to the first 50 and
writes the list back; any throw from `getItem`, `JSON.parse` or `setItem`
is caught, leaving the store unchanged. -/
def saveNotificationToHistory (f : Faults) (now : Nat) (s : Store) (n : NotificationInput) : Store :=
  if f.getFails then s else
  match parsedOrNone s with
  | none => s
  | some history =>
    if f.setFails then s
    else some (Blob.ok ((mkHistoryItem now n :: history).take 50))

/-- `getNotificationHistory`: the parsed blob, or `[]` when nothing is
stored or `getItem` or `JSON.parse` throws. -/
def getNotificationHistory (f : Faults) (s : Store) : List NotificationItem :=
  if f.getFails then [] else
  match parsedOrNone s with
  | none => []
  | some l => l

/-- `clearNotificationHistory`: removes the blob; a throw from
`removeItem` is caught, leaving the store unchanged. -/
def clearNotificationHistory (f : Faults) (s : Store) : Store :=
  if f.removeFails then s else none

/-- The data object `sendLocalNotification` builds for both the delivered
content and the history record:
`\x7b...data, title, body, price: data.price || 0, quantity: data.quantity || 0\x7d`. -/
def localContentData (title body : String) (data : Obj) : Obj :=
  oset (oset (oset (oset data "title" (JVal.str title)) "body" (JVal.str body))
    "price" (jsOr (jlookup data "price") (JVal.num 0)))
    "quantity" (jsOr (jlookup data "quantity") (JVal.num 0))

/-- The data object `scheduleNotification` builds for both the delivered
content and the history record: only `title`, `body`, `price` and
`quantity` (no spread of the remaining `data` fields). -/
def scheduleDataOf (title body : String) (data : Obj) : Obj :=
  [("quantity", jsOr (jlookup data "quantity") (JVal.num 0)),
   ("price", jsOr (jlookup data "price") (JVal.num 0)),
   ("body", JVal.str body),
   ("title", JVal.str title)]

/-- `sendLocalNotification`: asks the host to deliver immediately
(`deliver` is the host call's outcome), then saves the record to history;
a delivery throw propagates and skips the save, while the save itself
never throws. -/
def sendLocalNotification (deliver : Except String String) (f : Faults) (now : Nat)
    (s : Store) (title body : String) (data : Obj) : Except String String × Store :=
  match deliver with
  | Except.error e => (Except.error e, s)
  | Except.ok nid =>
    (Except.ok nid,
     saveNotificationToHistory f now s ⟨nid, title, body, localContentData title body data, none⟩)

/-- `scheduleNotification`: computes `scheduledAt = now + seconds * 1000`
as an ISO string (seconds defaulting to 60), asks the host to deliver
after `seconds`, then saves the record (with `scheduledAt`) to history;
a delivery throw propagates and skips the save. -/
def scheduleNotification (deliver : Except String String) (f : Faults) (now : Nat)
    (s : Store) (title body : String) (data : Obj) (seconds : Option Nat) :
    Except String String × Store :=
  match deliver with
  | Except.error e => (Except.error e, s)
  | Except.ok nid =>
    (Except.ok nid,
     saveNotificationToHistory f now s
       ⟨nid, title, body, scheduleDataOf title body data,
        some (isoOfMillis (now + (seconds.getD 60) * 1000))⟩)

/-- The argument of `sendOrderConfirmationNotification` and of
`sendOrderReadyNotification`. -/
structure OrderDetails where
  coffeeName : String
  quantity : Nat
  totalPrice : ℚ
  orderId : String

/-- The body template of the order-confirmation notification. -/
def orderConfirmationBody (o : OrderDetails) : String :=
  "Your order of " ++ toString o.quantity ++ " " ++ o.coffeeName ++ " " ++
    (if o.quantity = 1 then "is" else "are") ++ " confirmed. Total: $" ++
    jsToFixed2 o.totalPrice

/-- The data object of the order-confirmation notification. -/
def orderConfirmationData (now : Nat) (o : OrderDetails) : Obj :=
  [("title", JVal.str "☕ Order Confirmed!"),
   ("body", JVal.str (orderConfirmationBody o)),
   ("price", JVal.num o.totalPrice),
   ("quantity", JVal.num (Rat.ofInt o.quantity)),
   ("type", JVal.str "order_confirmed"),
   ("orderId", JVal.str o.orderId),
   ("coffeeName", JVal.str o.coffeeName),
   ("timestamp", JVal.str (isoOfMillis now))]

/-- `sendOrderConfirmationNotification`. -/
def sendOrderConfirmationNotification (deliver : Except String String) (f : Faults)
    (now : Nat) (s : Store) (o : OrderDetails) : Except String String × Store :=
  sendLocalNotification deliver f now s "☕ Order Confirmed!" (orderConfirmationBody o)
    (orderConfirmationData now o)

/-- The body template of the order-ready notification (the multiplier
appears exactly when the quantity exceeds 1). -/
def orderReadyBody (o : OrderDetails) : String :=
  "Your " ++ o.coffeeName ++ " " ++
    (if 1 < o.quantity then "(" ++ toString o.quantity ++ "x)" else "") ++
    " is ready for pickup!"

/-- The data object of the order-ready notification. -/
def orderReadyData (o : OrderDetails) : Obj :=
  [("title", JVal.str "✅ Your Order is Ready!"),
   ("body", JVal.str (orderReadyBody o)),
   ("price", JVal.num o.totalPrice),
   ("quantity", JVal.num (Rat.ofInt o.quantity)),
   ("type", JVal.str "order_ready"),
   ("orderId", JVal.str o.orderId),
   ("coffeeName", JVal.str o.coffeeName)]

/-- `sendOrderReadyNotification`. -/
def sendOrderReadyNotification (deliver : Except String String) (f : Faults)
    (now : Nat) (s : Store) (o : OrderDetails) : Except String String × Store :=
  sendLocalNotification deliver f now s "✅ Your Order is Ready!" (orderReadyBody o)
    (orderReadyData o)

/-- The argument of `sendPaymentConfirmationNotification`. -/
structure PaymentDetails where
  amount : ℚ
  cardNumber : String
  paymentId : String

/-- The body template of the payment-confirmation notification. -/
def paymentConfirmationBody (p : PaymentDetails) : String :=
  "Your payment of $" ++ jsToFixed2 p.amount ++ " has been processed successfully!"

/-- The data object of the payment-confirmation notification. -/
def paymentConfirmationData (now : Nat) (p : PaymentDetails) : Obj :=
  [("title", JVal.str "💳 Payment Successful"),
   ("body", JVal.str (paymentConfirmationBody p)),
   ("price", JVal.num p.amount),
   ("quantity", JVal.num 1),
   ("type", JVal.str "payment_confirmed"),
   ("paymentId", JVal.str p.paymentId),
   ("cardNumber", JVal.str p.cardNumber),
   ("timestamp", JVal.str (isoOfMillis now))]

/-- `sendPaymentConfirmationNotification`. -/
def sendPaymentConfirmationNotification (deliver : Except String String) (f : Faults)
    (now : Nat) (s : Store) (p : PaymentDetails) : Except String String × Store :=
  sendLocalNotification deliver f now s "💳 Payment Successful" (paymentConfirmationBody p)
    (paymentConfirmationData now p)

/-- The argument of `sendBookingConfirmationNotification` (the function
destructures only `title` from the details object). -/
structure BookingDetails where
  title : String

/-- `sendBookingConfirmationNotification`. -/
def sendBookingConfirmationNotification (deliver : Except String String) (f : Faults)
    (now : Nat) (s : Store) (b : BookingDetails) : Except String String × Store :=
  sendLocalNotification deliver f now s "🎉 Booking Confirmed!"
    ("Your " ++ b.title ++ " are wait you")
    [("type", JVal.str "booking_confirmed"), ("title", JVal.str b.title)]

/-- The argument of `sendSpecialOfferNotification`. -/
structure OfferDetails where
  offerTitle : String
  coffeeName : String
  discountPrice : ℚ
  originalPrice : ℚ

/-- The body template of the special-offer notification. -/
def specialOfferBody (o : OfferDetails) : String :=
  o.offerTitle ++ ": Get " ++ o.coffeeName ++ " for $" ++ jsToFixed2 o.discountPrice ++
    " (was $" ++ jsToFixed2 o.originalPrice ++ ")"

/-- The data object of the special-offer notification. -/
def specialOfferData (o : OfferDetails) : Obj :=
  [("title", JVal.str "🎉 Special Offer!"),
   ("body", JVal.str (specialOfferBody o)),
   ("price", JVal.num o.discountPrice),
   ("quantity", JVal.num 1),
   ("type", JVal.str "special_offer"),
   ("coffeeName", JVal.str o.coffeeName),
   ("originalPrice", JVal.num o.originalPrice)]

/-- `sendSpecialOfferNotification`. -/
def sendSpecialOfferNotification (deliver : Except String String) (f : Faults)
    (now : Nat) (s : Store) (o : OfferDetails) : Except String String × Store :=
  sendLocalNotification deliver f now s "🎉 Special Offer!" (specialOfferBody o)
    (specialOfferData o)

/-- Sequentially appends a list of (record, time) pairs to the store. -/
def appendAll (f : Faults) (l : List (NotificationInput × Nat)) (s : Store) : Store :=
  l.foldl (fun st p => saveNotificationToHistory f p.2 st p.1) s

/-- Digit characters produced by `dchar` satisfy `Char.isDigit`. -/
theorem dchar_isDigit (n : Nat) : (dchar n).isDigit = true := by
  show (Char.ofNat (48 + n % 10)).isDigit = true
  have h : n % 10 < 10 := Nat.mod_lt _ (by omega)
  revert h
  generalize n % 10 = m
  intro h
  interval_cases m <;> decide

/-- Every rendered timestamp has the ISO-8601 shape. -/
theorem validIso_isoOfMillis (t : Nat) : validIso (isoOfMillis t) = true := by
  have h : validIso (isoOfMillis t) = validIsoChars (isoCharsOfMillis t) := rfl
  rw [h]
  simp only [isoCharsOfMillis, d4chars, d3chars, d2chars, List.cons_append, List.nil_append]
  simp [validIsoChars, dchar_isDigit]

/-- The fallback of a present string is that string. -/
theorem jsOrEmpty_some (s : String) : jsOrEmpty (some s) = s := by
  show (if s = "" then "" else s) = s
  split
  · next h => exact h.symm
  · rfl

/-- Truncating the right operand of an append before truncating the whole
append changes nothing. -/
theorem take_append_take (n : Nat) (A z : List NotificationItem) :
    (A ++ z.take n).take n = (A ++ z).take n := by
  rw [List.take_append_eq_append_take, List.take_append_eq_append_take,
    List.take_take, Nat.min_eq_left (Nat.sub_le n A.length)]

/-- Closed form of a run of successful appends onto a well-formed store
holding at most 50 items. -/
theorem appendAll_okStore (l : List (NotificationInput × Nat)) (m : List NotificationItem)
    (hm : m.length ≤ 50) :
    appendAll noFaults l (some (Blob.ok m)) =
      some (Blob.ok ((l.reverse.map (fun p => mkHistoryItem p.2 p.1) ++ m).take 50)) := by
  induction l generalizing m with
  | nil =>
    simp [appendAll, List.take_of_length_le hm]
  | cons x l ih =>
    have step : appendAll noFaults (x :: l) (some (Blob.ok m)) =
        appendAll noFaults l (some (Blob.ok ((mkHistoryItem x.2 x.1 :: m).take 50))) := rfl
    rw [step, ih _ (by simp [List.length_take])]
    rw [take_append_take]
    simp [List.append_assoc]

/-- A throwaway notification used to instantiate witnesses. -/
def sampleInput : NotificationInput := ⟨"id1", "t", "b", [], none⟩

/-- After a successful append on a well-formed store, the new item sits at
the head of the history. -/
theorem head?_save (now : Nat) (s : Store) (n : NotificationInput)
    (hs : wellFormed s = true) :
    (getNotificationHistory noFaults (saveNotificationToHistory noFaults now s n)).head? =
      some (mkHistoryItem now n) := by
  rcases s with _ | bl
  · rfl
  · cases bl with
    | corrupt => simp [wellFormed] at hs
    | ok l => rfl

/-- C1: after any append the persisted history has length at most 50, and
after 51 sequential appends onto an initially empty store the history has
length 50 and its last element is the record of the 2nd call (the 1st was
evicted from the tail). -/
theorem history_capacity (now : Nat) (s : Store) (n : NotificationInput)
    (r1 r2 : NotificationInput × Nat) (rest : List (NotificationInput × Nat))
    (hrest : rest.length = 49) :
    (getNotificationHistory noFaults (saveNotificationToHistory noFaults now s n)).length ≤ 50 ∧
    (getNotificationHistory noFaults (appendAll noFaults (r1 :: r2 :: rest) emptyStore)).length
      = 50 ∧
    (getNotificationHistory noFaults (appendAll noFaults (r1 :: r2 :: rest) emptyStore)).getLast?
      = some (mkHistoryItem r2.2 r2.1) := by
  have hrun : appendAll noFaults (r1 :: r2 :: rest) emptyStore =
      some (Blob.ok ((rest.reverse.map (fun p => mkHistoryItem p.2 p.1)) ++
        [mkHistoryItem r2.2 r2.1])) := by
    have step : appendAll noFaults (r1 :: r2 :: rest) emptyStore =
        appendAll noFaults (r2 :: rest) (some (Blob.ok [mkHistoryItem r1.2 r1.1])) := rfl
    rw [step, appendAll_okStore _ _ (by simp)]
    have hsplit : ((r2 :: rest).reverse.map (fun p => mkHistoryItem p.2 p.1)) ++
        [mkHistoryItem r1.2 r1.1] =
        (rest.reverse.map (fun p => mkHistoryItem p.2 p.1) ++ [mkHistoryItem r2.2 r2.1]) ++
          [mkHistoryItem r1.2 r1.1] := by
      simp
    rw [hsplit]
    rw [show (50 : Nat) =
      (rest.reverse.map (fun p => mkHistoryItem p.2 p.1) ++ [mkHistoryItem r2.2 r2.1]).length
      from by simp [hrest]]
    rw [List.take_left]
  refine ⟨?_, ?_, ?_⟩
  · rcases s with _ | bl
    · simp [saveNotificationToHistory, getNotificationHistory, parsedOrNone, noFaults,
        List.length_take]
    · cases bl with
      | ok l =>
        simp [saveNotificationToHistory, getNotificationHistory, parsedOrNone, noFaults,
          List.length_take]
      | corrupt =>
        simp [saveNotificationToHistory, getNotificationHistory, parsedOrNone, noFaults]
  · rw [hrun]
    show (rest.reverse.map (fun p => mkHistoryItem p.2 p.1) ++
      [mkHistoryItem r2.2 r2.1]).length = 50
    simp [hrest]
  · rw [hrun]
    show (rest.reverse.map (fun p => mkHistoryItem p.2 p.1) ++
      [mkHistoryItem r2.2 r2.1]).getLast? = some (mkHistoryItem r2.2 r2.1)
    exact List.getLast?_concat _

/-- Witness for C1: 51 concrete appends leave exactly 50 records. -/
theorem history_capacity_witness :
    (getNotificationHistory noFaults
      (appendAll noFaults
        ((sampleInput, 0) :: (sampleInput, 1) :: List.replicate 49 (sampleInput, 2))
        emptyStore)).length = 50 :=
  (history_capacity 0 emptyStore sampleInput (sampleInput, 0) (sampleInput, 1)
    (List.replicate 49 (sampleInput, 2)) (by simp)).2.1

/-- C2: an append always places the new record at position 0, so after
append of `a` then append of `b` the history reads `b`, `a`, then the
prior contents (truncated to the first 48 to respect the capacity). -/
theorem history_insert_at_head (now : Nat) (s : Store) (n : NotificationInput)
    (a b : NotificationInput) (ta tb : Nat) (hs : wellFormed s = true) :
    (getNotificationHistory noFaults (saveNotificationToHistory noFaults now s n)).head? =
      some (mkHistoryItem now n) ∧
    getNotificationHistory noFaults
        (saveNotificationToHistory noFaults tb (saveNotificationToHistory noFaults ta s a) b) =
      mkHistoryItem tb b :: mkHistoryItem ta a ::
        (getNotificationHistory noFaults s).take 48 := by
  refine ⟨head?_save now s n hs, ?_⟩
  rcases s with _ | bl
  · rfl
  · cases bl with
    | corrupt => simp [wellFormed] at hs
    | ok l =>
      show (mkHistoryItem tb b :: (mkHistoryItem ta a :: l).take 50).take 50 =
        mkHistoryItem tb b :: mkHistoryItem ta a :: l.take 48
      rw [show (50 : Nat) = 49 + 1 from rfl, List.take_succ_cons, List.take_take]
      norm_num

/-- Witness for C2 at a concrete store. -/
theorem history_insert_at_head_witness :
    (getNotificationHistory noFaults
      (saveNotificationToHistory noFaults 0 emptyStore sampleInput)).head? =
      some (mkHistoryItem 0 sampleInput) :=
  (history_insert_at_head 0 emptyStore sampleInput sampleInput sampleInput 0 0 rfl).1

/-- C8: storage-path failures never propagate: a failing read or corrupt
blob degrades `getNotificationHistory` to `[]`, any failing host call
degrades `saveNotificationToHistory` to a no-op, and a failing remove
degrades `clearNotificationHistory` to a no-op. -/
theorem persistence_failure_suppression (f : Faults) (now : Nat) (s : Store)
    (n : NotificationInput) :
    (f.getFails = true → getNotificationHistory f s = []) ∧
    (wellFormed s = false → getNotificationHistory f s = []) ∧
    (f.getFails = true ∨ f.setFails = true ∨ wellFormed s = false →
      saveNotificationToHistory f now s n = s) ∧
    (f.removeFails = true → clearNotificationHistory f s = s) := by
  refine ⟨?_, ?_, ?_, ?_⟩
  · intro h
    simp [getNotificationHistory, h]
  · intro h
    rcases s with _ | bl
    · simp [wellFormed] at h
    · cases bl with
      | ok l => simp [wellFormed] at h
      | corrupt =>
        cases hg : f.getFails <;> simp [getNotificationHistory, hg, parsedOrNone]
  · intro h
    rcases h with h | h | h
    · simp [saveNotificationToHistory, h]
    · cases hg : f.getFails
      · cases hp : parsedOrNone s <;> simp [saveNotificationToHistory, hg, hp, h]
      · simp [saveNotificationToHistory, hg]
    · rcases s with _ | bl
      · simp [wellFormed] at h
      · cases bl with
        | ok l => simp [wellFormed] at h
        | corrupt =>
          cases hg : f.getFails <;>
            simp [saveNotificationToHistory, hg, parsedOrNone]
  · intro h
    simp [clearNotificationHistory, h]

/-- Witness for C8: each failure kind at a concrete input. -/
theorem persistence_failure_suppression_witness :
    getNotificationHistory ⟨true, false, false⟩ (some (Blob.ok [])) = [] ∧
    saveNotificationToHistory ⟨false, true, false⟩ 0 emptyStore sampleInput = emptyStore ∧
    clearNotificationHistory ⟨false, false, true⟩ emptyStore = emptyStore :=
  ⟨(persistence_failure_suppression ⟨true, false, false⟩ 0 (some (Blob.ok []))
      sampleInput).1 rfl,
   (persistence_failure_suppression ⟨false, true, false⟩ 0 emptyStore
      sampleInput).2.2.1 (Or.inr (Or.inl rfl)),
   (persistence_failure_suppression ⟨false, false, true⟩ 0 emptyStore
      sampleInput).2.2.2 rfl⟩

/-- C9: on a healthy host, clear deletes the persisted blob entirely, so a
subsequent read returns the empty sequence, from every store state. -/
theorem clear_then_get_empty (s : Store) :
    clearNotificationHistory noFaults s = none ∧
    getNotificationHistory noFaults (clearNotificationHistory noFaults s) = [] :=
  ⟨rfl, rfl⟩

/-- C3: for every dispatcher operation, a delivery failure propagates
unchanged and skips the history insertion (the store is untouched), while
under a successful delivery the caller receives the host-assigned
identifier whatever the history write does (including when it fails,
since `f` ranges over all fault patterns). -/
theorem delivery_failure_asymmetry (f : Faults) (now : Nat) (s : Store) :
    (∀ e title body data,
      sendLocalNotification (Except.error e) f now s title body data = (Except.error e, s)) ∧
    (∀ nid title body data,
      (sendLocalNotification (Except.ok nid) f now s title body data).1 = Except.ok nid) ∧
    (∀ e title body data secs,
      scheduleNotification (Except.error e) f now s title body data secs =
        (Except.error e, s)) ∧
    (∀ nid title body data secs,
      (scheduleNotification (Except.ok nid) f now s title body data secs).1 = Except.ok nid) ∧
    (∀ e o, sendOrderConfirmationNotification (Except.error e) f now s o =
      (Except.error e, s)) ∧
    (∀ nid o, (sendOrderConfirmationNotification (Except.ok nid) f now s o).1 =
      Except.ok nid) ∧
    (∀ e o, sendOrderReadyNotification (Except.error e) f now s o = (Except.error e, s)) ∧
    (∀ nid o, (sendOrderReadyNotification (Except.ok nid) f now s o).1 = Except.ok nid) ∧
    (∀ e p, sendPaymentConfirmationNotification (Except.error e) f now s p =
      (Except.error e, s)) ∧
    (∀ nid p, (sendPaymentConfirmationNotification (Except.ok nid) f now s p).1 =
      Except.ok nid) ∧
    (∀ e b, sendBookingConfirmationNotification (Except.error e) f now s b =
      (Except.error e, s)) ∧
    (∀ nid b, (sendBookingConfirmationNotification (Except.ok nid) f now s b).1 =
      Except.ok nid) ∧
    (∀ e o, sendSpecialOfferNotification (Except.error e) f now s o = (Except.error e, s)) ∧
    (∀ nid o, (sendSpecialOfferNotification (Except.ok nid) f now s o).1 = Except.ok nid) :=
  ⟨fun _ _ _ _ => rfl, fun _ _ _ _ => rfl, fun _ _ _ _ _ => rfl, fun _ _ _ _ _ => rfl,
   fun _ _ => rfl, fun _ _ => rfl, fun _ _ => rfl, fun _ _ => rfl, fun _ _ => rfl,
   fun _ _ => rfl, fun _ _ => rfl, fun _ _ => rfl, fun _ _ => rfl, fun _ _ => rfl⟩

/-- C4: the Latte scenario: the produced body is exactly
`Your order of 1 Latte is confirmed. Total: $4.50`, and the record at the
head of the history carries exactly the expected data mapping (with an
ISO-shaped timestamp). -/
theorem order_confirmation_scenario (now : Nat) (nid : String) (s : Store)
    (hs : wellFormed s = true) :
    orderConfirmationBody ⟨"Latte", 1, mkRat 9 2, "o1"⟩ =
      "Your order of 1 Latte is confirmed. Total: $4.50" ∧
    ∃ rec, (getNotificationHistory noFaults
        ((sendOrderConfirmationNotification (Except.ok nid) noFaults now s
          ⟨"Latte", 1, mkRat 9 2, "o1"⟩).2)).head? = some rec ∧
      jlookup rec.data "title" = some (JVal.str "☕ Order Confirmed!") ∧
      jlookup rec.data "body" =
        some (JVal.str "Your order of 1 Latte is confirmed. Total: $4.50") ∧
      jlookup rec.data "price" = some (JVal.num (mkRat 9 2)) ∧
      jlookup rec.data "quantity" = some (JVal.num (Rat.ofInt 1)) ∧
      jlookup rec.data "type" = some (JVal.str "order_confirmed") ∧
      jlookup rec.data "orderId" = some (JVal.str "o1") ∧
      jlookup rec.data "coffeeName" = some (JVal.str "Latte") ∧
      jlookup rec.data "timestamp" = some (JVal.str (isoOfMillis now)) ∧
      validIso (isoOfMillis now) = true ∧
      (rec.data.map Prod.fst).all
        (fun k => decide (k ∈ (["title", "body", "price", "quantity", "type", "orderId",
          "coffeeName", "timestamp"] : List String))) = true := by
  refine ⟨by decide, ?_⟩
  exact ⟨_, head?_save now s _ hs, rfl, rfl, rfl, rfl, rfl, rfl, rfl, rfl,
    validIso_isoOfMillis now, rfl⟩

/-- Witness for C4 at a concrete time and empty store. -/
theorem order_confirmation_scenario_witness :
    orderConfirmationBody ⟨"Latte", 1, mkRat 9 2, "o1"⟩ =
      "Your order of 1 Latte is confirmed. Total: $4.50" :=
  (order_confirmation_scenario 1700000000000 "n1" emptyStore rfl).1

/-- C5: the bodies match the fixed templates: order confirmation uses
`is` exactly when the quantity is 1 and `are` otherwise, the price is
rendered with exactly two decimal places (`12.50`, never `12.5`), and the
order-ready body carries the parenthetical multiplier exactly when the
quantity exceeds 1. -/
theorem body_template_exactness (o : OrderDetails) :
    (o.quantity = 1 →
      orderConfirmationBody o =
        "Your order of " ++ toString o.quantity ++ " " ++ o.coffeeName ++ " " ++ "is" ++
          " confirmed. Total: $" ++ jsToFixed2 o.totalPrice) ∧
    (o.quantity ≠ 1 →
      orderConfirmationBody o =
        "Your order of " ++ toString o.quantity ++ " " ++ o.coffeeName ++ " " ++ "are" ++
          " confirmed. Total: $" ++ jsToFixed2 o.totalPrice) ∧
    (∃ intPart fracPart, jsToFixed2 o.totalPrice = intPart ++ "." ++ fracPart ∧
      fracPart.length = 2 ∧ fracPart.data.all Char.isDigit = true) ∧
    jsToFixed2 (mkRat 25 2) = "12.50" ∧
    (1 < o.quantity →
      orderReadyBody o =
        "Your " ++ o.coffeeName ++ " " ++ ("(" ++ toString o.quantity ++ "x)") ++
          " is ready for pickup!") ∧
    (¬ 1 < o.quantity →
      orderReadyBody o =
        "Your " ++ o.coffeeName ++ " " ++ "" ++ " is ready for pickup!") := by
  refine ⟨?_, ?_, ?_, by decide, ?_, ?_⟩
  · intro h
    simp [orderConfirmationBody, h]
  · intro h
    simp [orderConfirmationBody, h]
  · unfold jsToFixed2
    split
    · exact ⟨"-" ++ toString (centsHalfUp o.totalPrice.num.natAbs o.totalPrice.den / 100),
        String.mk (d2chars (centsHalfUp o.totalPrice.num.natAbs o.totalPrice.den % 100)),
        by simp [natFixed2, String.append_assoc], rfl,
        by show (d2chars _).all Char.isDigit = true
           simp [d2chars, dchar_isDigit]⟩
    · exact ⟨toString (centsHalfUp o.totalPrice.num.natAbs o.totalPrice.den / 100),
        String.mk (d2chars (centsHalfUp o.totalPrice.num.natAbs o.totalPrice.den % 100)),
        rfl, rfl,
        by show (d2chars _).all Char.isDigit = true
           simp [d2chars, dchar_isDigit]⟩
  · intro h
    simp [orderReadyBody, h]
  · intro h
    simp [orderReadyBody, h]

/-- Witness for C5 at a concrete order. -/
theorem body_template_exactness_witness :
    orderConfirmationBody ⟨"Latte", 1, mkRat 9 2, "o1"⟩ =
      "Your order of " ++ toString (1 : Nat) ++ " " ++ "Latte" ++ " " ++ "is" ++
        " confirmed. Total: $" ++ jsToFixed2 (mkRat 9 2) :=
  (body_template_exactness ⟨"Latte", 1, mkRat 9 2, "o1"⟩).1 rfl

/-- C6: every record inserted through `sendLocalNotification` or
`scheduleNotification` carries `data.price` and `data.quantity` as present
values — the supplied value when truthy, `0` otherwise — and in particular
`0` (never undefined) when the event data omits them. -/
theorem price_quantity_always_present (now : Nat) (s : Store) (title body : String)
    (data : Obj) (nid : String) (hs : wellFormed s = true) :
    (∃ rec, (getNotificationHistory noFaults
        ((sendLocalNotification (Except.ok nid) noFaults now s title body data).2)).head? =
          some rec ∧
      jlookup rec.data "price" = some (jsOr (jlookup data "price") (JVal.num 0)) ∧
      jlookup rec.data "quantity" = some (jsOr (jlookup data "quantity") (JVal.num 0))) ∧
    (∀ secs, ∃ rec, (getNotificationHistory noFaults
        ((scheduleNotification (Except.ok nid) noFaults now s title body data secs).2)).head? =
          some rec ∧
      jlookup rec.data "price" = some (jsOr (jlookup data "price") (JVal.num 0)) ∧
      jlookup rec.data "quantity" = some (jsOr (jlookup data "quantity") (JVal.num 0))) ∧
    (jlookup data "price" = none → jsOr (jlookup data "price") (JVal.num 0) = JVal.num 0) ∧
    (jlookup data "quantity" = none →
      jsOr (jlookup data "quantity") (JVal.num 0) = JVal.num 0) := by
  refine ⟨⟨_, head?_save now s _ hs, rfl, rfl⟩,
    fun secs => ⟨_, head?_save now s _ hs, rfl, rfl⟩, ?_, ?_⟩
  · intro h
    rw [h]
    rfl
  · intro h
    rw [h]
    rfl

/-- Witness for C6: a store and an event with no price or quantity. -/
theorem price_quantity_always_present_witness :
    jlookup ([("type", JVal.str "booking_confirmed")] : Obj) "price" = none ∧
    jsOr (jlookup ([("type", JVal.str "booking_confirmed")] : Obj) "price") (JVal.num 0) =
      JVal.num 0 :=
  ⟨rfl, (price_quantity_always_present 0 emptyStore "t" "b"
    [("type", JVal.str "booking_confirmed")] "n1" rfl).2.2.1 rfl⟩

/-- C7: `scheduleNotification` defaults `seconds` to 60 when omitted, the
persisted record's scheduled-time attribute (spelled `shleduledAt` in
storage) is the ISO rendering of the scheduling time plus `seconds`
(computed and stored at scheduling time), and an immediate send persists
an empty scheduled-time attribute. -/
theorem schedule_timestamp_semantics (now : Nat) (s : Store) (title body : String)
    (data : Obj) (nid : String) (secs : Nat) (hs : wellFormed s = true) :
    (∀ deliver f, scheduleNotification deliver f now s title body data none =
      scheduleNotification deliver f now s title body data (some 60)) ∧
    (∃ rec, (getNotificationHistory noFaults
        ((scheduleNotification (Except.ok nid) noFaults now s title body data
          (some secs)).2)).head? = some rec ∧
      rec.shleduledAt = isoOfMillis (now + secs * 1000) ∧
      validIso (isoOfMillis (now + secs * 1000)) = true) ∧
    (∃ rec, (getNotificationHistory noFaults
        ((sendLocalNotification (Except.ok nid) noFaults now s title body data).2)).head? =
          some rec ∧
      rec.shleduledAt = "") := by
  refine ⟨fun deliver f => rfl,
    ⟨_, head?_save now s _ hs, ?_, validIso_isoOfMillis _⟩,
    ⟨_, head?_save now s _ hs, rfl⟩⟩
  show jsOrEmpty (some (isoOfMillis (now + secs * 1000))) = isoOfMillis (now + secs * 1000)
  exact jsOrEmpty_some _

/-- Witness for C7 at a concrete store. -/
theorem schedule_timestamp_semantics_witness :
    scheduleNotification (Except.ok "n1") noFaults 0 emptyStore "T" "B" [] none =
      scheduleNotification (Except.ok "n1") noFaults 0 emptyStore "T" "B" [] (some 60) :=
  (schedule_timestamp_semantics 0 emptyStore "T" "B" [] "n1" 30 rfl).1
    (Except.ok "n1") noFaults

/-- C10: the data object `scheduleNotification` builds (used for both the
delivered content and the history record) holds only `title`, `body`,
`price` and `quantity` — every other supplied field is dropped — whereas
`sendLocalNotification` preserves all other supplied data fields in its
data object and in the persisted record. -/
theorem schedule_drops_extra_data_fields (now : Nat) (s : Store) (title body : String)
    (data : Obj) (nid : String) (k : String) (secs : Option Nat)
    (hs : wellFormed s = true)
    (hk : k ∉ (["title", "body", "price", "quantity"] : List String)) :
    jlookup (scheduleDataOf title body data) k = none ∧
    (∃ rec, (getNotificationHistory noFaults
        ((scheduleNotification (Except.ok nid) noFaults now s title body data secs).2)).head? =
          some rec ∧
      jlookup rec.data k = none) ∧
    jlookup (localContentData title body data) k = jlookup data k ∧
    (∃ rec, (getNotificationHistory noFaults
        ((sendLocalNotification (Except.ok nid) noFaults now s title body data).2)).head? =
          some rec ∧
      jlookup rec.data k = jlookup data k) ∧
    jlookup (scheduleDataOf title body data) "title" = some (JVal.str title) ∧
    jlookup (scheduleDataOf title body data) "body" = some (JVal.str body) ∧
    jlookup (scheduleDataOf title body data) "price" =
      some (jsOr (jlookup data "price") (JVal.num 0)) ∧
    jlookup (scheduleDataOf title body data) "quantity" =
      some (jsOr (jlookup data "quantity") (JVal.num 0)) := by
  simp only [List.mem_cons, List.not_mem_nil, or_false, not_or] at hk
  obtain ⟨h1, h2, h3, h4⟩ := hk
  refine ⟨?_, ⟨_, head?_save now s _ hs, ?_⟩, ?_, ⟨_, head?_save now s _ hs, ?_⟩,
    rfl, rfl, rfl, rfl⟩
  · simp [scheduleDataOf, jlookup, h1, h2, h3, h4]
  · show jlookup (saveDataOf (scheduleDataOf title body data)) k = none
    simp [saveDataOf, scheduleDataOf, osetOpt, jlookup, h1, h2, h3, h4]
  · simp [localContentData, oset, jlookup, h1, h2, h3, h4]
  · show jlookup (saveDataOf (localContentData title body data)) k = jlookup data k
    simp [saveDataOf, localContentData, oset, osetOpt, jlookup, h1, h2, h3, h4]

/-- Witness for C10 at the concrete extra field `orderId`. -/
theorem schedule_drops_extra_data_fields_witness :
    jlookup (scheduleDataOf "T" "B" [("orderId", JVal.str "o1")]) "orderId" = none :=
  (schedule_drops_extra_data_fields 0 emptyStore "T" "B" [("orderId", JVal.str "o1")]
    "n1" "orderId" none rfl (by decide)).1

end PushService
